import Mathlib

/-!
Verification of the server configuration manager
(`tools/server_config_manager.py`): layered YAML configuration
resolution (`get_server_config`), validation (`validate_config`) and
persistence with backup (`save_config`).

Modelling conventions:
  * YAML scalar/sequence values are the inductive `Value`; Python dicts
    are insertion-ordered association lists (`ConfigMap`), matching
    CPython's ordered-dict semantics.
  * `dict.get` / `in` are `List.lookup` / `Option.isSome` on the first
    binding, which coincides with Python dicts (no duplicate keys).
  * Exceptions are `Except`: the two `ValueError` raise sites of the
    resolver are the two constructors of `ConfigError`; the `TypeError`
    that Python's `<` raises on non-numeric operands is `PyError.typeError`.
-/

/-- A YAML value as it appears inside a configuration mapping:
strings, integers, booleans, `null`, or a sequence (e.g. `middleware`). -/
inductive Value where
  | vStr : String → Value
  | vInt : Int → Value
  | vBool : Bool → Value
  | vNull : Value
  | vList : List Value → Value
deriving Repr

/-- Python's `x is None` identity test on a stored value. -/
def Value.isNull : Value → Bool
  | .vNull => true
  | _ => false

/-- A Python dict of options: insertion-ordered association list. -/
abbrev ConfigMap := List (String × Value)

/-- The parsed configuration document (`self.config`): a `default`
option mapping plus, for each environment name, the mapping from server
name to its override mapping (the `environments.<env>.servers` table). -/
structure ConfigDocument where
  default : ConfigMap
  environments : List (String × List (String × ConfigMap))
deriving Repr

/-- The two `ValueError` raise sites of the resolver, kept distinct:
unknown environment (from `get_servers`) and unknown server
(from `get_server_config`). -/
inductive ConfigError where
  | unknownEnvironment : String → ConfigError
  | unknownServer : String → String → ConfigError
deriving Repr, DecidableEq

/-- `str(e)` for a resolver error: the exact f-string messages of the
two `raise ValueError(...)` lines. -/
def ConfigError.message : ConfigError → String
  | .unknownEnvironment env =>
      "Environment \x27" ++ env ++ "\x27 not found in configuration"
  | .unknownServer server env =>
      "Server \x27" ++ server ++ "\x27 not found in environment \x27" ++ env ++ "\x27"

/-- Python's `{**default_config, **server_config}`: the keys of the
first dict in order, each taking the second dict's value when present,
followed by the second dict's new keys in order. -/
def dictMerge (d s : ConfigMap) : ConfigMap :=
  (d.map fun kv =>
    match s.lookup kv.1 with
    | some v => (kv.1, v)
    | none => kv) ++
  s.filter fun kv => (d.lookup kv.1).isNone

/-- `get_environments`: the keys of the `environments` mapping. -/
def get_environments (doc : ConfigDocument) : List String :=
  doc.environments.map Prod.fst

/-- `get_servers`: raises for an undeclared environment, otherwise the
`servers` table of that environment. -/
def get_servers (doc : ConfigDocument) (environment : String) :
    Except ConfigError (List (String × ConfigMap)) :=
  if environment ∈ get_environments doc then
    .ok ((doc.environments.lookup environment).getD [])
  else
    .error (.unknownEnvironment environment)

/-- `get_server_config`: resolve a (environment, server) pair by merging
`default` with the server's override mapping, override winning.  The
source's `if 'middleware' in ... : pass` block is a no-op and adds
nothing to the merge. -/
def get_server_config (doc : ConfigDocument) (environment server_name : String) :
    Except ConfigError ConfigMap :=
  match get_servers doc environment with
  | .error e => .error e
  | .ok servers =>
    match servers.lookup server_name with
    | none => .error (.unknownServer server_name environment)
    | some server_config => .ok (dictMerge doc.default server_config)

/-- The uncaught Python runtime error of the validator: comparing a
non-numeric value with an `int` (`port < 1` etc.) raises `TypeError`,
which the `except ValueError` handler does not catch. -/
inductive PyError where
  | typeError : PyError
deriving Repr, DecidableEq

/-- Python truthiness, as used by `if config.get(\x27ssl_enabled\x27, False):`. -/
def truthy : Value → Bool
  | .vBool b => b
  | .vInt n => decide (n ≠ 0)
  | .vStr s => decide (s ≠ "")
  | .vNull => false
  | .vList l => !l.isEmpty

/-- Python `v < n` for an `int` literal `n`: defined on `int` and `bool`
(`bool` is an `int` subclass), `TypeError` otherwise. -/
def pyLtInt : Value → Int → Except PyError Bool
  | .vInt m, n => .ok (decide (m < n))
  | .vBool b, n => .ok (decide ((if b then (1 : Int) else 0) < n))
  | _, _ => .error .typeError

/-- Python `v > n` for an `int` literal `n`. -/
def pyGtInt : Value → Int → Except PyError Bool
  | .vInt m, n => .ok (decide (n < m))
  | .vBool b, n => .ok (decide (n < (if b then (1 : Int) else 0)))
  | _, _ => .error .typeError

/-- Python `str(v)` as used by the validator's f-strings.  Only `int` and
`bool` values can reach a message position (any other non-`None` value
raises `TypeError` in the comparison first); the sequence case renders
elements without Python's quoting, which is unreachable here. -/
def pyStr : Value → String
  | .vInt n => toString n
  | .vBool true => "True"
  | .vBool false => "False"
  | .vStr s => s
  | .vNull => "None"
  | .vList l => "[" ++ String.intercalate ", " (l.map fun _ => "...") ++ "]"

/-- The required-fields loop: append `"Missing required field: {field}"`
for each of `host`, `port`, `workers`, `timeout` absent from the config,
in that order. -/
def requiredFieldErrors (config : ConfigMap) : List String :=
  (["host", "port", "workers", "timeout"].filter
    fun field => (config.lookup field).isNone).map
    fun field => "Missing required field: " ++ field

/-- The SSL block: when `ssl_enabled` is truthy, require `ssl_cert` and
`ssl_key`. -/
def sslConfigErrors (config : ConfigMap) : List String :=
  if truthy ((config.lookup "ssl_enabled").getD (.vBool false)) then
    (if (config.lookup "ssl_cert").isNone then
      ["SSL enabled but ssl_cert not specified"] else []) ++
    (if (config.lookup "ssl_key").isNone then
      ["SSL enabled but ssl_key not specified"] else [])
  else []

/-- The port block: `port = config.get(\x27port\x27)`; when not `None`,
`port < 1 or port > 65535` (left to right, short-circuit) appends
`"Invalid port number: {port}"`; the comparison may raise `TypeError`. -/
def portRangeErrors (config : ConfigMap) : Except PyError (List String) :=
  let v := (config.lookup "port").getD .vNull
  if v.isNull then .ok []
  else
    match pyLtInt v 1 with
    | .error e => .error e
    | .ok true => .ok ["Invalid port number: " ++ pyStr v]
    | .ok false =>
      match pyGtInt v 65535 with
      | .error e => .error e
      | .ok true => .ok ["Invalid port number: " ++ pyStr v]
      | .ok false => .ok []

/-- The workers / timeout blocks: when the field is not `None`,
`value < 1` appends the given message; the comparison may raise. -/
def lowerBoundErrors (config : ConfigMap) (field msg : String) :
    Except PyError (List String) :=
  let v := (config.lookup field).getD .vNull
  if v.isNull then .ok []
  else
    match pyLtInt v 1 with
    | .error e => .error e
    | .ok true => .ok [msg ++ pyStr v]
    | .ok false => .ok []

/-- The body of `validate_config` after a successful lookup (source lines
130-160): required fields, SSL, port range, workers, timeout, with the
error strings accumulated in exactly that order.  An uncaught `TypeError`
from a comparison aborts the whole call. -/
def checkConfig (config : ConfigMap) : Except PyError (List String) :=
  let required := requiredFieldErrors config
  let ssl := sslConfigErrors config
  match portRangeErrors config with
  | .error e => .error e
  | .ok portErrs =>
    match lowerBoundErrors config "workers" "Invalid number of workers: " with
    | .error e => .error e
    | .ok workerErrs =>
      match lowerBoundErrors config "timeout" "Invalid timeout: " with
      | .error e => .error e
      | .ok timeoutErrs =>
        .ok (required ++ ssl ++ portErrs ++ workerErrs ++ timeoutErrs)

/-- `validate_config`: resolve the pair inside `try`; a `ValueError`
from the resolver is caught and reported as the single error string
`str(e)`; the validation body itself may raise `TypeError`, which is not
caught. -/
def validate_config (doc : ConfigDocument) (environment server_name : String) :
    Except PyError (List String) :=
  match get_server_config doc environment server_name with
  | .error e => .ok [e.message]
  | .ok config => checkConfig config

/-- A file system: a partial map from path to file content. -/
def FS : Type := String → Option String

/-- Read the content of the file at a path, when present. -/
def FS.read (fs : FS) (p : String) : Option String := fs p

/-- Overwrite (or create) the file at a path. -/
def FS.write (fs : FS) (p c : String) : FS :=
  fun q => if q = p then some c else fs q

/-- `save_config(config, backup)`:  when `backup` is set and a file
exists at `config_path`, copy it to `config_path + ".bak"` first, and on
an `IOError` there re-raise without attempting the main write; then
write `yaml.dump(config)` (passed here already serialized as `dumped`,
the YAML library being external).  `backupOk` / `writeOk` are I/O
oracles telling whether each file operation succeeds; a failed step
leaves the file system as it was before that step.  Returns whether an
`IOError` escaped, together with the resulting file system. -/
def save_config (fs : FS) (config_path dumped : String)
    (backup backupOk writeOk : Bool) : Bool × FS :=
  if backup && (fs.read config_path).isSome then
    if backupOk then
      let fs1 := fs.write (config_path ++ ".bak") ((fs.read config_path).getD "")
      if writeOk then (false, fs1.write config_path dumped) else (true, fs1)
    else (true, fs)
  else
    if writeOk then (false, fs.write config_path dumped) else (true, fs)

/-- The manager object: its only state is the document loaded at
construction time (`self.config`). -/
structure ServerConfigManager where
  config : ConfigDocument

/-- One query method call on a manager, result discarded. -/
inductive Query where
  | envsQ : Query
  | serversQ : String → Query
  | configQ : String → String → Query
  | validateQ : String → String → Query

/-- Run one query method on the manager and return the manager state it
leaves behind: each method body only reads `self.config` (no assignment
to `self` occurs anywhere in them). -/
def runQuery (m : ServerConfigManager) : Query → ServerConfigManager
  | .envsQ => let _r := get_environments m.config; m
  | .serversQ e => let _r := get_servers m.config e; m
  | .configQ e s => let _r := get_server_config m.config e s; m
  | .validateQ e s => let _r := validate_config m.config e s; m

/-- Run a sequence of query method calls. -/
def runQueries (m : ServerConfigManager) : List Query → ServerConfigManager
  | [] => m
  | q :: qs => runQueries (runQuery m q) qs

/-- A value acceptable on the left of the validator's `< 1` comparisons
without a `TypeError`: an `int`, a `bool`, or `None` (the `None` case is
filtered out before comparing). -/
def numericOrNull : Value → Bool
  | .vInt _ => true
  | .vBool _ => true
  | .vNull => true
  | _ => false

/-- The guard under which the validation body cannot raise: each of
`port`, `workers`, `timeout` is absent, `None`, or numeric. -/
def numericGuardsOk (config : ConfigMap) : Bool :=
  numericOrNull ((config.lookup "port").getD .vNull) &&
  numericOrNull ((config.lookup "workers").getD .vNull) &&
  numericOrNull ((config.lookup "timeout").getD .vNull)

/-- The worked example document of the specification. -/
def sampleDoc : ConfigDocument :=
  ⟨[("host", .vStr "0.0.0.0"), ("port", .vInt 8080),
    ("workers", .vInt 2), ("timeout", .vInt 10)],
   [("dev", [("main", [("port", .vInt 9090)])])]⟩

/-- A document whose resolved config carries a string `port`: feeding it
to the validator reaches `port < 1` with a `str` operand. -/
def stringPortDoc : ConfigDocument :=
  ⟨[("port", .vStr "eight")], [("dev", [("main", [])])]⟩

/-- A document exercising the `middleware` full-replacement behaviour
and an empty server override. -/
def middlewareDoc : ConfigDocument :=
  ⟨[("middleware", .vList [.vStr "auth", .vStr "log"]), ("port", .vInt 80)],
   [("prod", [("main", [("middleware", .vList [.vStr "cors"])]),
              ("plain", [])])]⟩

/-- A fully valid resolved config. -/
def validSample : ConfigMap :=
  [("host", .vStr "localhost"), ("port", .vInt 8000),
   ("workers", .vInt 4), ("timeout", .vInt 30)]

/-- A sample file system with one configuration file on it. -/
def sampleFS : FS :=
  fun q => if q = "mcp_servers.yaml" then some "default. old" else none

/-! ## Association-list lemmas for the dict merge -/

theorem lookup_append {α : Type} (l₁ l₂ : List (String × α)) (k : String) :
    (l₁ ++ l₂).lookup k = (l₁.lookup k).or (l₂.lookup k) := by
  induction l₁ with
  | nil => simp [List.lookup]
  | cons a t ih =>
    cases hk : (k == a.1) <;> simp [List.lookup, hk, ih]

theorem lookup_map_pair (g : String → Value → Value) (d : ConfigMap)
    (k : String) :
    ((d.map fun kv => (kv.1, g kv.1 kv.2)).lookup k)
      = (d.lookup k).map (g k) := by
  induction d with
  | nil => rfl
  | cons a t ih =>
    by_cases hk : k = a.1
    · subst hk
      simp [List.lookup, ih]
    · have hb : (k == a.1) = false := beq_eq_false_iff_ne.mpr hk
      simp [List.lookup, hb, ih]

theorem override_fun_eq (s : ConfigMap) :
    (fun kv : String × Value =>
      match s.lookup kv.1 with
      | some v => (kv.1, v)
      | none => kv)
    = fun kv : String × Value => (kv.1, (s.lookup kv.1).getD kv.2) := by
  funext kv
  cases h : s.lookup kv.1 <;> simp [h]

theorem lookup_map_override (d s : ConfigMap) (k : String) :
    ((d.map fun kv =>
        match s.lookup kv.1 with
        | some v => (kv.1, v)
        | none => kv).lookup k)
      = (d.lookup k).map fun b => (s.lookup k).getD b := by
  rw [override_fun_eq]
  exact lookup_map_pair (fun key b => (s.lookup key).getD b) d k

theorem lookup_filter_new (d s : ConfigMap) (k : String) :
    ((s.filter fun kv => (d.lookup kv.1).isNone).lookup k)
      = if (d.lookup k).isNone then s.lookup k else none := by
  induction s with
  | nil => simp [List.lookup]
  | cons a t ih =>
    by_cases hk : k = a.1
    · subst hk
      cases hd : (d.lookup a.1).isNone <;>
        simp [List.filter_cons, hd, List.lookup, ih]
    · have hb : (k == a.1) = false := beq_eq_false_iff_ne.mpr hk
      cases hd : (d.lookup a.1).isNone <;>
        simp [List.filter_cons, hd, List.lookup, hb, ih]

/-- Pointwise description of `{**d, **s}`: the lookup of any key in the
merged dict is the override's value when present, else the default's. -/
theorem lookup_dictMerge (d s : ConfigMap) (k : String) :
    (dictMerge d s).lookup k = (s.lookup k).or (d.lookup k) := by
  unfold dictMerge
  rw [lookup_append, lookup_map_override, lookup_filter_new]
  cases hd : d.lookup k <;> cases hs : s.lookup k <;> simp

/-- The empty dict is a right identity for the merge. -/
theorem dictMerge_nil (d : ConfigMap) : dictMerge d [] = d := by
  unfold dictMerge
  simp [List.lookup]

theorem mem_keys_of_lookup {α : Type} {l : List (String × α)} {k : String}
    {v : α} (h : l.lookup k = some v) : k ∈ l.map Prod.fst := by
  induction l with
  | nil => simp [List.lookup] at h
  | cons a t ih =>
    cases hk : (k == a.1)
    · simp [List.lookup, hk] at h
      exact List.mem_cons_of_mem _ (ih h)
    · have hke : k = a.1 := eq_of_beq hk
      simp [hke]

/-! ## Resolver reductions -/

theorem get_servers_of_lookup {doc : ConfigDocument} {env : String}
    {servers : List (String × ConfigMap)}
    (h : doc.environments.lookup env = some servers) :
    get_servers doc env = .ok servers := by
  have hmem : env ∈ get_environments doc := mem_keys_of_lookup h
  unfold get_servers
  rw [if_pos hmem, h]
  rfl

theorem get_server_config_of_lookup {doc : ConfigDocument}
    {env srv : String} {servers : List (String × ConfigMap)} {ov : ConfigMap}
    (h1 : doc.environments.lookup env = some servers)
    (h2 : servers.lookup srv = some ov) :
    get_server_config doc env srv = .ok (dictMerge doc.default ov) := by
  unfold get_server_config
  rw [get_servers_of_lookup h1]
  simp [h2]

/-! ## Validator lemmas -/

/-- A numeric-or-null value is either `None`, or both comparisons are
defined on it. -/
theorem numeric_cases {v : Value} (h : numericOrNull v = true) :
    v = .vNull ∨ (v.isNull = false ∧
      ∀ n : Int, (∃ b, pyLtInt v n = .ok b) ∧ (∃ b, pyGtInt v n = .ok b)) := by
  cases v <;> simp_all [numericOrNull, Value.isNull, pyLtInt, pyGtInt]

theorem lowerBoundErrors_ok (config : ConfigMap) (field msg : String)
    (h : numericOrNull ((config.lookup field).getD .vNull) = true) :
    ∃ l, lowerBoundErrors config field msg = .ok l := by
  unfold lowerBoundErrors
  rcases numeric_cases h with hnull | ⟨hnn, hcomp⟩
  · rw [hnull]
    exact ⟨[], rfl⟩
  · obtain ⟨b, hb⟩ := (hcomp 1).1
    cases b
    · exact ⟨[], by simp [hnn, hb]⟩
    · exact ⟨[msg ++ pyStr ((config.lookup field).getD .vNull)],
        by simp [hnn, hb]⟩

theorem portRangeErrors_ok (config : ConfigMap)
    (h : numericOrNull ((config.lookup "port").getD .vNull) = true) :
    ∃ l, portRangeErrors config = .ok l := by
  unfold portRangeErrors
  rcases numeric_cases h with hnull | ⟨hnn, hcomp⟩
  · rw [hnull]
    exact ⟨[], rfl⟩
  · obtain ⟨b1, hb1⟩ := (hcomp 1).1
    obtain ⟨b2, hb2⟩ := (hcomp 65535).2
    cases b1
    · cases b2
      · exact ⟨[], by simp [hnn, hb1, hb2]⟩
      · exact ⟨["Invalid port number: " ++ pyStr ((config.lookup "port").getD .vNull)],
          by simp [hnn, hb1, hb2]⟩
    · exact ⟨["Invalid port number: " ++ pyStr ((config.lookup "port").getD .vNull)],
        by simp [hnn, hb1]⟩

theorem checkConfig_ok {config : ConfigMap}
    (h : numericGuardsOk config = true) :
    ∃ l, checkConfig config = .ok l := by
  unfold numericGuardsOk at h
  simp only [Bool.and_eq_true] at h
  obtain ⟨⟨hp, hw⟩, ht⟩ := h
  obtain ⟨lp, hlp⟩ := portRangeErrors_ok config hp
  obtain ⟨lw, hlw⟩ := lowerBoundErrors_ok config "workers" "Invalid number of workers: " hw
  obtain ⟨lt', hlt⟩ := lowerBoundErrors_ok config "timeout" "Invalid timeout: " ht
  refine ⟨requiredFieldErrors config ++ sslConfigErrors config ++ lp ++ lw ++ lt', ?_⟩
  unfold checkConfig
  rw [hlp, hlw, hlt]

/-- Shape of the required-field errors when `port` is absent and
`workers` is present. -/
theorem requiredFieldErrors_port_missing {config : ConfigMap}
    (hp : config.lookup "port" = none)
    (hw : (config.lookup "workers").isNone = false) :
    requiredFieldErrors config
      = (if (config.lookup "host").isNone then
          ["Missing required field: host"] else [])
        ++ "Missing required field: port"
          :: (if (config.lookup "timeout").isNone then
            ["Missing required field: timeout"] else []) := by
  unfold requiredFieldErrors
  cases hh : (config.lookup "host").isNone <;>
    cases ht : (config.lookup "timeout").isNone <;>
      simp [List.filter_cons, hp, hh, ht, hw]

theorem append_bak_ne (path : String) : (path ++ ".bak") ≠ path := by
  intro h
  have hl := congrArg String.length h
  rw [String.length_append] at hl
  have h4 : (".bak" : String).length = 4 := rfl
  omega

/-! ## Claim theorems -/

/-- C1: for every configuration document and every declared
(environment, server) pair, `get_server_config` returns a mapping in
which each key resolves to the server override's value when the override
declares it, and to the default's value otherwise; a key absent from
both is absent from the result. -/
theorem resolved_config_merge (doc : ConfigDocument) (env srv : String)
    (servers : List (String × ConfigMap)) (ov : ConfigMap)
    (h1 : doc.environments.lookup env = some servers)
    (h2 : servers.lookup srv = some ov) :
    ∃ m, get_server_config doc env srv = .ok m ∧
      ∀ k, m.lookup k = (ov.lookup k).or (doc.default.lookup k) :=
  ⟨dictMerge doc.default ov, get_server_config_of_lookup h1 h2,
   fun k => lookup_dictMerge doc.default ov k⟩

theorem resolved_config_merge_witness :
    ∃ m, get_server_config sampleDoc "dev" "main" = .ok m ∧
      ∀ k, m.lookup k
        = (([("port", Value.vInt 9090)] : ConfigMap).lookup k).or
            (sampleDoc.default.lookup k) :=
  resolved_config_merge sampleDoc "dev" "main"
    [("main", [("port", .vInt 9090)])] [("port", .vInt 9090)]
    (by rfl) (by rfl)

/-- C2: when both the default and the server override carry a
`middleware` list, the resolved config's `middleware` is exactly the
override's list, whatever the default's list contains (full
replacement, no element-wise merge). -/
theorem middleware_full_replacement (doc : ConfigDocument) (env srv : String)
    (servers : List (String × ConfigMap)) (ov : ConfigMap) (dm L : List Value)
    (h1 : doc.environments.lookup env = some servers)
    (h2 : servers.lookup srv = some ov)
    (_hd : doc.default.lookup "middleware" = some (.vList dm))
    (ho : ov.lookup "middleware" = some (.vList L)) :
    ∃ m, get_server_config doc env srv = .ok m ∧
      m.lookup "middleware" = some (.vList L) :=
  ⟨dictMerge doc.default ov, get_server_config_of_lookup h1 h2, by
    rw [lookup_dictMerge, ho]; rfl⟩

theorem middleware_full_replacement_witness :
    ∃ m, get_server_config middlewareDoc "prod" "main" = .ok m ∧
      m.lookup "middleware" = some (.vList [.vStr "cors"]) :=
  middleware_full_replacement middlewareDoc "prod" "main"
    [("main", [("middleware", .vList [.vStr "cors"])]), ("plain", [])]
    [("middleware", .vList [.vStr "cors"])]
    [.vStr "auth", .vStr "log"] [.vStr "cors"]
    (by rfl) (by rfl) (by rfl) (by rfl)

/-- C3: `get_server_config` on an undeclared environment fails with the
unknown-environment error, and on a declared environment with an
undeclared server fails with the distinct unknown-server error. -/
theorem lookup_failure_errors (doc : ConfigDocument) (env srv : String) :
    (env ∉ get_environments doc →
      get_server_config doc env srv = .error (.unknownEnvironment env)) ∧
    (∀ servers, doc.environments.lookup env = some servers →
      servers.lookup srv = none →
      get_server_config doc env srv = .error (.unknownServer srv env)) := by
  constructor
  · intro hmem
    unfold get_server_config get_servers
    rw [if_neg hmem]
  · intro servers h1 h2
    unfold get_server_config
    rw [get_servers_of_lookup h1]
    simp [h2]

theorem lookup_failure_errors_witness :
    get_server_config sampleDoc "staging" "main"
        = .error (.unknownEnvironment "staging") ∧
    get_server_config sampleDoc "dev" "extra"
        = .error (.unknownServer "extra" "dev") :=
  ⟨(lookup_failure_errors sampleDoc "staging" "main").1 (by decide),
   (lookup_failure_errors sampleDoc "dev" "extra").2
     [("main", [("port", .vInt 9090)])] (by rfl) (by rfl)⟩

/-- C4 counterexample: a resolved config whose `port` is the string
"eight" makes `validate_config` raise an uncaught `TypeError` at
`port < 1`, so validation does not return an error list for every
input. -/
theorem validate_config_raises_on_string_port :
    validate_config stringPortDoc "dev" "main" = .error .typeError := by rfl

/-- C4 (amended): a failed (environment, server) lookup is caught and
reported as the single-element list of its error string; and when every
one of `port`, `workers`, `timeout` in the resolved config is absent,
`None`, or numeric, validation returns an error list and never raises. -/
theorem validate_config_contract (doc : ConfigDocument) (env srv : String) :
    (∀ e, get_server_config doc env srv = .error e →
      validate_config doc env srv = .ok [e.message]) ∧
    (∀ config, get_server_config doc env srv = .ok config →
      numericGuardsOk config = true →
      ∃ errs, validate_config doc env srv = .ok errs) := by
  constructor
  · intro e he
    unfold validate_config
    rw [he]
  · intro config hc hg
    obtain ⟨l, hl⟩ := checkConfig_ok hg
    refine ⟨l, ?_⟩
    unfold validate_config
    rw [hc]
    exact hl

theorem validate_config_contract_witness :
    validate_config sampleDoc "qa" "main"
        = .ok [ConfigError.message (.unknownEnvironment "qa")] ∧
    ∃ errs, validate_config sampleDoc "dev" "main" = .ok errs :=
  ⟨(validate_config_contract sampleDoc "qa" "main").1
     (.unknownEnvironment "qa") (by rfl),
   (validate_config_contract sampleDoc "dev" "main").2
     [("host", .vStr "0.0.0.0"), ("port", .vInt 9090),
      ("workers", .vInt 2), ("timeout", .vInt 10)] (by rfl) (by rfl)⟩

/-- C5: with `backup` set and a file present, a successful save leaves a
`.bak` file holding exactly the prior content and the original holding
the new content; a failed backup raises and leaves the file system
untouched, the overwrite never happening. -/
theorem save_backup_behaviour (fs : FS) (path old dumped : String)
    (h : fs.read path = some old) :
    ((save_config fs path dumped true true true).1 = false ∧
     ((save_config fs path dumped true true true).2).read (path ++ ".bak")
        = some old ∧
     ((save_config fs path dumped true true true).2).read path
        = some dumped) ∧
    (∀ writeOk, (save_config fs path dumped true false writeOk).1 = true ∧
      (save_config fs path dumped true false writeOk).2 = fs) := by
  have h' : fs path = some old := h
  constructor
  · refine ⟨?_, ?_, ?_⟩ <;>
      simp [save_config, FS.read, FS.write, h', append_bak_ne path]
  · intro writeOk
    refine ⟨?_, ?_⟩ <;> simp [save_config, FS.read, h']

theorem save_backup_behaviour_witness :
    ((save_config sampleFS "mcp_servers.yaml" "new content" true true true).1
        = false ∧
     ((save_config sampleFS "mcp_servers.yaml" "new content" true true true).2).read
        ("mcp_servers.yaml" ++ ".bak") = some "default. old" ∧
     ((save_config sampleFS "mcp_servers.yaml" "new content" true true true).2).read
        "mcp_servers.yaml" = some "new content") ∧
    (∀ writeOk,
      (save_config sampleFS "mcp_servers.yaml" "new content" true false writeOk).1
          = true ∧
      (save_config sampleFS "mcp_servers.yaml" "new content" true false writeOk).2
          = sampleFS) :=
  save_backup_behaviour sampleFS "mcp_servers.yaml" "default. old"
    "new content" (by rfl)

/-- C6 counterexample: a resolved config with `port` absent and
`workers = 0` on which validation raises `TypeError` (its `timeout` is a
string) instead of returning the two expected messages. -/
theorem workers_zero_raises_on_string_timeout :
    checkConfig [("workers", .vInt 0), ("timeout", .vStr "soon")]
      = .error .typeError := by rfl

/-- C6 (amended): on a resolved config with `port` absent,
`workers = 0`, and a `timeout` that is absent, `None` or numeric,
validation returns a list in which "Missing required field: port"
appears, and "Invalid number of workers: 0" appears later. -/
theorem workers_zero_message_order (config : ConfigMap)
    (hp : config.lookup "port" = none)
    (hw : config.lookup "workers" = some (.vInt 0))
    (ht : numericOrNull ((config.lookup "timeout").getD .vNull) = true) :
    ∃ pre mid post,
      checkConfig config
        = .ok (pre ++ "Missing required field: port"
            :: (mid ++ "Invalid number of workers: 0" :: post)) := by
  have hw' : (config.lookup "workers").isNone = false := by rw [hw]; rfl
  obtain ⟨lt', hlt⟩ := lowerBoundErrors_ok config "timeout" "Invalid timeout: " ht
  have hport : portRangeErrors config = .ok [] := by
    unfold portRangeErrors
    rw [hp]
    rfl
  have hworkers : lowerBoundErrors config "workers" "Invalid number of workers: "
      = .ok ["Invalid number of workers: 0"] := by
    unfold lowerBoundErrors
    rw [hw]
    rfl
  refine ⟨(if (config.lookup "host").isNone then
            ["Missing required field: host"] else []),
          (if (config.lookup "timeout").isNone then
            ["Missing required field: timeout"] else [])
            ++ sslConfigErrors config,
          lt', ?_⟩
  unfold checkConfig
  rw [hport, hworkers, hlt, requiredFieldErrors_port_missing hp hw']
  simp

theorem workers_zero_message_order_witness :
    ∃ pre mid post,
      checkConfig [("workers", Value.vInt 0)]
        = .ok (pre ++ "Missing required field: port"
            :: (mid ++ "Invalid number of workers: 0" :: post)) :=
  workers_zero_message_order [("workers", .vInt 0)] (by rfl) (by rfl) (by rfl)

/-- C7: the specification's worked example resolves exactly as stated:
the default with `port` replaced by 9090. -/
theorem sample_scenario_resolution :
    get_server_config sampleDoc "dev" "main"
      = .ok [("host", .vStr "0.0.0.0"), ("port", .vInt 9090),
             ("workers", .vInt 2), ("timeout", .vInt 10)] := by rfl

/-- C8: a resolved config with `host = "localhost"`, `port = 8000`,
`workers = 4`, `timeout = 30` and no `ssl_enabled` key validates with no
errors. -/
theorem valid_config_accepted (config : ConfigMap)
    (hh : config.lookup "host" = some (.vStr "localhost"))
    (hp : config.lookup "port" = some (.vInt 8000))
    (hw : config.lookup "workers" = some (.vInt 4))
    (ht : config.lookup "timeout" = some (.vInt 30))
    (hs : config.lookup "ssl_enabled" = none) :
    checkConfig config = .ok [] := by
  have h1 : requiredFieldErrors config = [] := by
    unfold requiredFieldErrors
    simp [List.filter_cons, hh, hp, hw, ht]
  have h2 : sslConfigErrors config = [] := by
    unfold sslConfigErrors
    rw [hs]
    rfl
  have h3 : portRangeErrors config = .ok [] := by
    unfold portRangeErrors
    rw [hp]
    rfl
  have h4 : lowerBoundErrors config "workers" "Invalid number of workers: "
      = .ok [] := by
    unfold lowerBoundErrors
    rw [hw]
    rfl
  have h5 : lowerBoundErrors config "timeout" "Invalid timeout: "
      = .ok [] := by
    unfold lowerBoundErrors
    rw [ht]
    rfl
  unfold checkConfig
  rw [h3, h4, h5, h1, h2]
  rfl

theorem valid_config_accepted_witness :
    checkConfig validSample = .ok [] :=
  valid_config_accepted validSample
    (by rfl) (by rfl) (by rfl) (by rfl) (by rfl)

/-- C9: no sequence of query method calls (`get_environments`,
`get_servers`, `get_server_config`, `validate_config`) changes the
document the manager holds; only the explicit save operation writes
state. -/
theorem queries_preserve_document (m : ServerConfigManager)
    (qs : List Query) : (runQueries m qs).config = m.config := by
  induction qs generalizing m with
  | nil => rfl
  | cons q t ih => cases q <;> exact ih m

/-- C10: a declared server whose override mapping is empty resolves to
exactly the document's default mapping: the empty override is an
identity for the merge. -/
theorem empty_override_identity (doc : ConfigDocument) (env srv : String)
    (servers : List (String × ConfigMap))
    (h1 : doc.environments.lookup env = some servers)
    (h2 : servers.lookup srv = some ([] : ConfigMap)) :
    get_server_config doc env srv = .ok doc.default := by
  rw [get_server_config_of_lookup h1 h2, dictMerge_nil]

theorem empty_override_identity_witness :
    get_server_config middlewareDoc "prod" "plain"
      = .ok middlewareDoc.default :=
  empty_override_identity middlewareDoc "prod" "plain"
    [("main", [("middleware", .vList [.vStr "cors"])]), ("plain", [])]
    (by rfl) (by rfl)
